import Mathlib

/-!
Verification of the content-production pipeline's leaf modules against their
specification: topic classification and suitability scoring
(`src/modules/classify.py`), text-to-speech text handling and mock audio
(`src/modules/tts.py`), script validation and duration estimation
(`src/modules/script_gen.py`), upload metadata normalization
(`src/modules/upload_youtube.py`), the deduplication cache
(`src/utils/dedup.py`), and the JSON repair utility
(`src/utils/json_fixer.py`).

Python strings are modelled as `List Char`; Python `float` arithmetic is
modelled exactly over `ℚ` (the source values involved are small decimal
constants, so the exact-rational model tracks the float computation up to
well-below-threshold rounding noise); Python `datetime` values are modelled as
integer seconds, with `timedelta(days=d)` equal to `d * 86400` (ISO-format
timestamp strings of a common era compare lexicographically exactly as their
underlying instants compare). Dictionary keys that may be absent are modelled
with `Option`.
-/

set_option maxRecDepth 20000

/-- Python strings as character sequences. -/
abbrev Str := List Char

/-! ## Python string primitives -/

/-- Whitespace for Python `str.split()` and the regex class `\s`
(ASCII range; the sources only ever produce ASCII whitespace). -/
def pySpace (c : Char) : Bool :=
  c = ' ' || c = '\t' || c = '\n' || c = '\r' || c = '\x0b' || c = '\x0c'

/-- Helper for `wordCount`: the Boolean records whether the scan is currently
inside a whitespace-free run. -/
def wordCountAux : Str → Bool → Nat
  | [], _ => 0
  | c :: rest, inWord =>
    if pySpace c then wordCountAux rest false
    else (if inWord then 0 else 1) + wordCountAux rest true

/-- Python `len(s.split())`: the number of maximal whitespace-free runs. -/
def wordCount (s : Str) : Nat := wordCountAux s false

/-- Python `s.lower()` (the sources only lowercase ASCII text). -/
def pyLower (s : Str) : Str := s.map Char.toLower

/-- Python `pat in s` substring containment. -/
def isInfixOfB (pat : Str) : Str → Bool
  | [] => pat.isEmpty
  | s@(_ :: rest) => pat.isPrefixOf s || isInfixOfB pat rest

/-- Truthiness of an optional string (`if post.get(key):`):
present and non-empty. -/
def truthy : Option Str → Bool
  | none => false
  | some s => !s.isEmpty

/-! ## `TextToSpeech.split_text_for_api` (src/modules/tts.py)

`text.replace('\n', ' ').split('. ')`, then a greedy packing loop that closes
each emitted chunk with a period. -/

/-- Python `text.split('. ')`: fields between non-overlapping leftmost
occurrences of the two-character separator. -/
def splitDotSpace : Str → List Str
  | [] => [[]]
  | '.' :: ' ' :: rest => [] :: splitDotSpace rest
  | c :: rest =>
    let r := splitDotSpace rest
    (c :: r.headD []) :: r.tail

/-- Python `current_chunk.endswith('.')`. -/
def pyEndsWithDot (s : Str) : Bool := s.getLast? == some '.'

/-- The packing loop of `split_text_for_api`: `current_chunk` accumulates
sentences (re-joined with `". "`) while the projected size
`len(current) + len(sentence) + 2` stays within `max_chars`; otherwise the
accumulated chunk is flushed with a trailing period. The final chunk gets a
period only when it does not already end with one. -/
def packLoop (max_chars : Nat) : List Str → Str → List Str
  | [], current =>
    if current.isEmpty then []
    else [if pyEndsWithDot current then current else current ++ ['.']]
  | s :: rest, current =>
    if current.length + s.length + 2 ≤ max_chars then
      if current.isEmpty then packLoop max_chars rest s
      else packLoop max_chars rest (current ++ '.' :: ' ' :: s)
    else
      if current.isEmpty then packLoop max_chars rest s
      else (current ++ ['.']) :: packLoop max_chars rest s

/-- Embedding of `TextToSpeech.split_text_for_api(text, max_chars)` (the Python default for
`max_chars` is 5000). -/
def split_text_for_api (text : Str) (max_chars : Nat) : List Str :=
  packLoop max_chars (splitDotSpace (text.map fun c => if c = '\n' then ' ' else c)) []

/-- The largest sentence length in a list of sentences. -/
def maxLen (ss : List Str) : Nat := ss.foldr (fun s m => max s.length m) 0


/-! ## Theorems are collected at the end of the file, after all definitions. -/

/-! ## `TextToSpeech._generate_mock_audio` (src/modules/tts.py)

`duration = (word_count / 165) * 60`; `num_samples = int(44100 * duration)`
(truncation of a non-negative value, i.e. floor); the WAV file receives exactly
`num_samples` frames at 44100 Hz, so its measured duration is
`num_samples / 44100`, and the function returns the computed `duration`. -/

/-- The duration value computed (and returned) by `_generate_mock_audio`. -/
def mock_audio_duration (text : Str) : ℚ := ((wordCount text : ℚ) / 165) * 60

/-- The sample count `num_samples = int(sample_rate * duration)`. -/
def mock_audio_num_samples (text : Str) : ℕ :=
  (⌊(44100 : ℚ) * mock_audio_duration text⌋).toNat

/-- The duration of the written WAV file: frame count over the 44100 Hz rate. -/
def mock_audio_measured_duration (text : Str) : ℚ :=
  (mock_audio_num_samples text : ℚ) / 44100

/-! ## The `script.v1` document (src/modules/script_gen.py, src/modules/tts.py)

A script is a JSON object; the fields the verified functions touch are
modelled structurally, with `Option` recording key presence. -/

structure PolicyChecklist where
  copyright_risk : Bool
  medical_or_financial_claims : Bool
  nsfw : Bool
  shocking_or_graphic : Bool
deriving DecidableEq

structure Chapter where
  heading : Option Str
  body : Option Str
deriving DecidableEq

structure Narration where
  intro : Option Str
  chapters : Option (List Chapter)
  outro : Option Str
deriving DecidableEq

structure Script where
  version : Option Str
  title : Option Str
  hook : Option Str
  narration : Option Narration
  broll_keywords : Option (List Str)
  disclaimers : Option (List Str)
  policy_checklist : Option PolicyChecklist
deriving DecidableEq

/-- Accessor `script.get('narration', \x7b\x7d).get('chapters', [])`. -/
def scriptChapters (s : Script) : List Chapter :=
  match s.narration with
  | none => []
  | some n => n.chapters.getD []

/-- Accessor `script.get('narration', \x7b\x7d).get('intro', '')`. -/
def narrationIntro (s : Script) : Str :=
  match s.narration with
  | none => []
  | some n => n.intro.getD []

/-- Accessor `script.get('narration', \x7b\x7d).get('outro', '')`. -/
def narrationOutro (s : Script) : Str :=
  match s.narration with
  | none => []
  | some n => n.outro.getD []

/-! ## `ScriptGenerator.calculate_duration` (src/modules/script_gen.py) -/

/-- Python `round(q)` to an integer: round half to even. -/
def pyRound (q : ℚ) : ℤ :=
  if Int.fract q < 1/2 then ⌊q⌋
  else if 1/2 < Int.fract q then ⌊q⌋ + 1
  else if ⌊q⌋ % 2 = 0 then ⌊q⌋ else ⌊q⌋ + 1

/-- Python `round(q, 1)`: round to one decimal digit. -/
def pyRound1 (q : ℚ) : ℚ := (pyRound (q * 10) : ℚ) / 10

/-- The words counted by `calculate_duration`: hook + narration intro +
chapter bodies + narration outro (chapter headings are not counted). -/
def total_narration_words (s : Script) : ℕ :=
  wordCount (s.hook.getD []) + wordCount (narrationIntro s) +
    ((scriptChapters s).map fun ch => wordCount (ch.body.getD [])).sum +
    wordCount (narrationOutro s)

/-- Embedding of `ScriptGenerator.calculate_duration`: total words at 165 wpm, rounded to
one decimal place, in minutes. -/
def calculate_duration (s : Script) : ℚ :=
  pyRound1 ((total_narration_words s : ℚ) / 165)

/-! ## `ScriptGenerator._validate_script` (src/modules/script_gen.py)

The loop over the 7 required top-level fields backfills only `version`,
`disclaimers`, `broll_keywords` and `policy_checklist` (missing `title`,
`hook`, `narration` are left absent); intro/chapters/outro are backfilled
only inside an existing `narration`; a present title is truncated to 100
characters. -/

def validate_script (s : Script) : Script :=
  { version :=
      (match s.version with
       | none => some "script.v1".data
       | some v => some v),
    title := s.title.map fun t => t.take 100,
    hook := s.hook,
    narration :=
      (match s.narration with
       | none => none
       | some n =>
         some { intro :=
                  (match n.intro with
                   | none => some "Welcome to our video!".data
                   | some i => some i),
                chapters :=
                  (match n.chapters with
                   | none => some []
                   | some cs => some cs),
                outro :=
                  (match n.outro with
                   | none => some "Thanks for watching!".data
                   | some o => some o) }),
    broll_keywords :=
      (match s.broll_keywords with
       | none => some ["general".data, "content".data]
       | some k => some k),
    disclaimers :=
      (match s.disclaimers with
       | none => some []
       | some d => some d),
    policy_checklist :=
      (match s.policy_checklist with
       | none => some ⟨false, false, false, false⟩
       | some p => some p) }

/-- Is the narration intro key present? -/
def narrationIntroPresent (s : Script) : Bool :=
  match s.narration with
  | none => false
  | some n => n.intro.isSome

/-! ## `TextToSpeech._extract_narration` (src/modules/tts.py)

Builds the list of narration parts — hook, intro, per chapter the heading
followed by a period and the body, then the outro, with empty-string pause
markers — and joins them with a blank line (`"\n\n".join(parts)`). -/

/-- Python `"\n\n".join(parts)`. -/
def joinSep : List Str → Str
  | [] => []
  | [p] => p
  | p :: rest => p ++ '\n' :: '\n' :: joinSep rest

/-- The parts a chapter contributes: `heading + "."` when the heading key is
present, the body when present, then the empty pause marker. -/
def chapterParts (ch : Chapter) : List Str :=
  (match ch.heading with
   | none => []
   | some h => [h ++ ['.']]) ++
  (match ch.body with
   | none => []
   | some b => [b]) ++ [[]]

/-- The full parts list built by `_extract_narration`. -/
def narrationParts (s : Script) : List Str :=
  (match s.hook with
   | none => []
   | some h => [h, []]) ++
  (match s.narration with
   | none => []
   | some n =>
     match n.intro with
     | none => []
     | some i => [i, []]) ++
  ((scriptChapters s).map chapterParts).flatten ++
  (match s.narration with
   | none => []
   | some n =>
     match n.outro with
     | none => []
     | some o => [o])

/-- Embedding of `TextToSpeech._extract_narration`. -/
def extract_narration (s : Script) : Str := joinSep (narrationParts s)

/-- The duration of the mock audio `generate_audio` produces for a script:
the mock generator applied to the extracted narration text. -/
def generate_audio_mock_duration (s : Script) : ℚ :=
  mock_audio_duration (extract_narration s)

/-- The words a chapter's heading contributes to the narration text: the
words of `heading + "."` when the heading key is present (at least one word,
even for an empty heading). -/
def headingWords (ch : Chapter) : ℕ :=
  match ch.heading with
  | none => 0
  | some h => wordCount (h ++ ['.'])

/-- The heading words `_extract_narration` adds on top of the words counted
by `calculate_duration`. -/
def extraHeadingWords (s : Script) : ℕ := ((scriptChapters s).map headingWords).sum

/-! ## `TopicClassifier` (src/modules/classify.py)

A Reddit post, with `Option` for keys `post.get(...)` may find absent. -/

structure Post where
  title : Option Str
  selftext : Option Str
  url : Option Str
  subreddit : Option Str
  flair : Option Str
  score : Option ℤ
  upvote_ratio : Option ℚ
deriving DecidableEq

/-- Python `' '.join(parts)`. -/
def joinSpace : List Str → Str
  | [] => []
  | [p] => p
  | p :: rest => p ++ ' ' :: joinSpace rest

/-- Python `', '.join(parts)`. -/
def joinCommaSpace : List Str → Str
  | [] => []
  | [p] => p
  | p :: rest => p ++ ',' :: ' ' :: joinCommaSpace rest

/-- Embedding of `TopicClassifier._extract_text`: title tripled (string repetition),
self-text, labelled subreddit and flair, joined with spaces, lowercased.
Each part is appended only when the key is present and non-empty. -/
def extract_text (p : Post) : Str :=
  pyLower (joinSpace (
    (if truthy p.title then [p.title.getD [] ++ p.title.getD [] ++ p.title.getD []] else []) ++
    (if truthy p.selftext then [p.selftext.getD []] else []) ++
    (if truthy p.subreddit then ["subreddit: ".data ++ p.subreddit.getD []] else []) ++
    (if truthy p.flair then ["flair: ".data ++ p.flair.getD []] else [])))

/-- The configured content policy (`content_policy.banned_terms` and
`content_policy.sensitive_topics`). -/
structure ContentPolicy where
  banned_terms : List Str
  sensitive_topics : List Str
deriving DecidableEq

/-- The dictionary returned by `analyze_post_suitability`. -/
structure Suitability where
  is_suitable : Bool
  score : ℤ
  issues : List Str
  warnings : List Str
  recommendation : Str
  requires_disclaimer : Bool
deriving DecidableEq

/-- Embedding of `TopicClassifier.analyze_post_suitability`: starts at 100, applies the
title-length, content-availability, banned-term, sensitive-topic, engagement
and upvote-ratio deductions in source order, accumulating issue and warning
messages; suitable iff the final score is at least 50 and no issues; the
reported score is floored at 0. -/
def analyze_post_suitability (cfg : ContentPolicy) (p : Post) : Suitability :=
  let title_length := (p.title.getD []).length
  let step1 : List Str × List Str × ℤ :=
    if title_length < 20 then (["Title too short".data], [], 100 - 20)
    else if 200 < title_length then ([], ["Title very long".data], 100 - 5)
    else ([], [], 100)
  let selftext := p.selftext.getD []
  let step2 : List Str × List Str × ℤ :=
    if (selftext.isEmpty || selftext.length < 50) &&
       (!truthy p.url || isInfixOfB "reddit.com".data (p.url.getD [])) then
      (step1.1 ++ ["Insufficient content".data], step1.2.1, step1.2.2 - 30)
    else step1
  let text := extract_text p
  let found_banned := cfg.banned_terms.filter fun term => isInfixOfB (pyLower term) text
  let step3 : List Str × List Str × ℤ :=
    if found_banned.isEmpty then step2
    else (step2.1 ++ ["Contains banned terms: ".data ++ joinCommaSpace found_banned],
          step2.2.1, step2.2.2 - 50)
  let found_sensitive := cfg.sensitive_topics.filter fun topic => isInfixOfB (pyLower topic) text
  let step4 : List Str × List Str × ℤ :=
    if found_sensitive.isEmpty then step3
    else (step3.1,
          step3.2.1 ++ ["Contains sensitive topics: ".data ++ joinCommaSpace found_sensitive],
          step3.2.2 - 15)
  let step5 : List Str × List Str × ℤ :=
    if p.score.getD 0 < 100 then (step4.1, step4.2.1 ++ ["Low engagement score".data], step4.2.2 - 10)
    else step4
  let step6 : List Str × List Str × ℤ :=
    if p.upvote_ratio.getD 1 < 7/10 then
      (step5.1, step5.2.1 ++ ["Low upvote ratio".data], step5.2.2 - 10)
    else step5
  let suitable := decide (50 ≤ step6.2.2) && step6.1.isEmpty
  { is_suitable := suitable,
    score := max 0 step6.2.2,
    issues := step6.1,
    warnings := step6.2.1,
    recommendation := if suitable then "approved".data else "rejected".data,
    requires_disclaimer := !found_sensitive.isEmpty }

/-- The per-topic keyword rules from configuration (`topics.rules`), in
dictionary order: topic id paired with its (lowercased) keyword list. -/
abbrev TopicRules := List (Str × List Str)

/-- Model of `re.findall` over the alternation `kw1|kw2|...` of literal keywords, as
compiled by `_compile_patterns`: scan left to right; at each position the
first alternative that matches is taken and the scan resumes after it,
otherwise the scan advances one character. Fuelled by the text length (each
step consumes at least one character, so the fuel never runs out). Empty
keywords are ignored (the configuration never contains any). -/
def findallAux (kws : List Str) : Nat → Str → List Str
  | 0, _ => []
  | _, [] => []
  | fuel+1, c :: rest =>
    match kws.find? fun kw => !kw.isEmpty && kw.isPrefixOf (c :: rest) with
    | some kw => kw :: findallAux kws fuel ((c :: rest).drop kw.length)
    | none => findallAux kws fuel rest

def findall (kws : List Str) (text : Str) : List Str := findallAux kws text.length text

/-- The classification triple `(topic, confidence, method)`; of the metadata
dictionary only the `classification_method` entry is modelled. -/
structure ClassifyResult where
  topic : Str
  confidence : ℚ
  method : Str
deriving DecidableEq

/-- A topic's raw score: `match_count * 0.7 + unique_count * 0.3`, where the
unique count is the number of distinct keywords found. -/
def topicScore (found : List Str) : ℚ :=
  (found.length : ℚ) * (7/10) + (found.dedup.length : ℚ) * (3/10)

/-- Embedding of `TopicClassifier._rule_based_classification`: per topic (in rule order),
collect the found keywords; topics with no match are skipped; with no matches
at all the default topic is returned with confidence 0.3; otherwise the first
highest-scoring topic wins with confidence `min(score / 20, 1.0)`. -/
def rule_based_classification (rules : TopicRules) (default_topic : Str) (text : Str) :
    ClassifyResult :=
  let found_topics := rules.filterMap fun r =>
    let found := findall r.2 text
    if found.isEmpty then none else some (r.1, topicScore found)
  match found_topics with
  | [] => ⟨default_topic, 3/10, "rule_based".data⟩
  | m :: ms =>
    let best := ms.foldl (fun b y => if b.2 < y.2 then y else b) m
    ⟨best.1, min (best.2 / 20) 1, "rule_based".data⟩

/-- The fixed subreddit-to-topic mapping of `_subreddit_classification`. -/
def subreddit_mappings : List (Str × List Str) :=
  [("ai_news".data,
    ["artificialintelligence".data, "machinelearning".data, "openai".data,
     "singularity".data, "technology".data]),
   ("listicle".data,
    ["todayilearned".data, "interestingasfuck".data, "mildlyinteresting".data,
     "dataisbeautiful".data, "coolguides".data]),
   ("explainer".data,
    ["explainlikeimfive".data, "askscience".data, "askreddit".data,
     "nostupidquestions".data, "outoftheloop".data])]

/-- Embedding of `TopicClassifier._subreddit_classification`: exact membership gives
confidence 0.8; otherwise a mutual-substring match gives 0.6; otherwise the
default topic with 0.3. -/
def subreddit_classification (default_topic : Str) (p : Post) : Str × ℚ :=
  let subreddit := pyLower (p.subreddit.getD [])
  match subreddit_mappings.find? fun m => m.2.contains subreddit with
  | some m => (m.1, 4/5)
  | none =>
    match subreddit_mappings.find? fun m =>
        m.2.any fun sub => isInfixOfB sub subreddit || isInfixOfB subreddit sub with
    | some m => (m.1, 3/5)
    | none => (default_topic, 3/10)

/-- The part of `classify` after the rule-based result `r` failed the 0.7
confidence gate: the subreddit signal replaces `r` when strictly more
confident, and a final confidence below 0.5 forces the default topic with
confidence 0.4. -/
def classify_fallback (default_topic : Str) (p : Post) (r : ClassifyResult) : ClassifyResult :=
  let sub := subreddit_classification default_topic p
  let r2 := if r.confidence < sub.2 then ⟨sub.1, sub.2, "subreddit".data⟩ else r
  if r2.confidence < 1/2 then ⟨default_topic, 2/5, "default".data⟩ else r2

/-- Embedding of `TopicClassifier.classify`: the rule-based result is returned outright
only when its confidence exceeds 0.7; otherwise the fallback chain runs. -/
def classify (rules : TopicRules) (default_topic : Str) (p : Post) : ClassifyResult :=
  let r := rule_based_classification rules default_topic (extract_text p)
  if 7/10 < r.confidence then r
  else classify_fallback default_topic p r

/-! ## `YouTubeUploader.upload_video` metadata normalization
(src/modules/upload_youtube.py) -/

def VALID_PRIVACY_STATUSES : List Str := ["private".data, "unlisted".data, "public".data]

structure UploadMeta where
  title : Str
  description : Str
  privacy_status : Str
deriving DecidableEq

/-- The field normalization `upload_video` performs before building the
request body: an unrecognized privacy status is replaced by `private`; a
title longer than 100 characters becomes its first 97 characters plus
`"..."`; a description longer than 5000 characters becomes its first 4997
characters plus `"..."`. -/
def upload_video_metadata (title description privacy_status : Str) : UploadMeta :=
  let privacy :=
    if VALID_PRIVACY_STATUSES.contains privacy_status then privacy_status
    else "private".data
  let t := if 100 < title.length then title.take 97 ++ "...".data else title
  let d := if 5000 < description.length then description.take 4997 ++ "...".data else description
  ⟨t, d, privacy⟩

/-! ## `DeduplicationManager` (src/utils/dedup.py)

The cache maps identifiers to `{timestamp, metadata}`; timestamps are ISO
strings produced by `datetime.now().isoformat()` and compared with `<`, which
for same-era ISO strings is exactly the chronological order, so they are
modelled as integer seconds; `timedelta(days=d)` is `d * 86400` seconds.
Metadata plays no role in expiry and is omitted. -/

/-- Embedding of `_clean_expired`: with the feature enabled, drop every entry whose
timestamp is strictly before `now - timedelta(days=cache_days)`. -/
def clean_expired (enabled : Bool) (cache_days now : ℤ) (cache : List (Str × ℤ)) :
    List (Str × ℤ) :=
  if enabled then cache.filter fun e => !decide (e.2 < now - cache_days * 86400)
  else cache

/-- Embedding of `_load_cache`: with the feature disabled, or no cache file, the in-memory
cache stays empty; otherwise the file contents are loaded and purged. -/
def load_cache (enabled : Bool) (cache_days now : ℤ) (file : Option (List (Str × ℤ))) :
    List (Str × ℤ) :=
  if enabled then
    match file with
    | some c => clean_expired true cache_days now c
    | none => []
  else []

/-- Embedding of `add_item`: with the feature enabled, store the identifier with the
current timestamp (dictionary assignment: any previous entry under the same
key is replaced). -/
def add_item (enabled : Bool) (cache : List (Str × ℤ)) (item_id : Str) (now : ℤ) :
    List (Str × ℤ) :=
  if enabled then (cache.filter fun e => e.1 ≠ item_id) ++ [(item_id, now)]
  else cache

/-! ## `JSONFixer` (src/utils/json_fixer.py)

JSON values and a model of the standard-library `json.loads` (recursive
descent, fuelled by the input length; the error kinds mirror the
`JSONDecodeError` messages the retry loop of `parse_with_fixes` inspects,
together with the character position it extracts for the comma fix). -/

inductive Json where
  | null
  | bool (b : Bool)
  | num (q : ℚ)
  | str (s : Str)
  | arr (elems : List Json)
  | obj (members : List (Str × Json))

inductive JsonErr where
  | expectingValue
  | expectingPropertyName
  | expectingColonDelimiter
  | expectingCommaDelimiter
  | invalidEscape
  | unterminatedString
  | invalidControlChar
  | extraData
  | outOfFuel
deriving DecidableEq

/-- JSON insignificant whitespace (space, tab, newline, carriage return). -/
def jsonWs (c : Char) : Bool := c = ' ' || c = '\t' || c = '\n' || c = '\r'

/-- Skip JSON whitespace, tracking the absolute position. -/
def skipJsonWs : Str → Nat → Str × Nat
  | [], pos => ([], pos)
  | c :: rest, pos => if jsonWs c then skipJsonWs rest (pos + 1) else (c :: rest, pos)

def parseHexDigit (c : Char) : Option Nat :=
  if '0' ≤ c ∧ c ≤ '9' then some (c.toNat - '0'.toNat)
  else if 'a' ≤ c ∧ c ≤ 'f' then some (c.toNat - 'a'.toNat + 10)
  else if 'A' ≤ c ∧ c ≤ 'F' then some (c.toNat - 'A'.toNat + 10)
  else none

/-- Parse the remainder of a JSON string (the opening quote already
consumed), returning the decoded content, the rest of the input and the
position after the closing quote. Surrogate pairs are not recombined (the
sources never produce them). -/
def parseJsonString : Nat → Str → Nat → Except (JsonErr × Nat) (Str × Str × Nat)
  | 0, _, pos => .error (.outOfFuel, pos)
  | _+1, [], pos => .error (.unterminatedString, pos)
  | f+1, c :: rest, pos =>
    if c = '"' then .ok ([], rest, pos + 1)
    else if c = '\\' then
      match rest with
      | [] => .error (.unterminatedString, pos)
      | e :: rest2 =>
        let esc : Option Char :=
          if e = '"' then some '"' else if e = '\\' then some '\\'
          else if e = '/' then some '/' else if e = 'b' then some '\x08'
          else if e = 'f' then some '\x0c' else if e = 'n' then some '\n'
          else if e = 'r' then some '\r' else if e = 't' then some '\t' else none
        match esc with
        | some ch =>
          match parseJsonString f rest2 (pos + 2) with
          | .ok (sx, r2, p2) => .ok (ch :: sx, r2, p2)
          | .error err => .error err
        | none =>
          if e = 'u' then
            match rest2 with
            | h1 :: h2 :: h3 :: h4 :: rest3 =>
              match parseHexDigit h1, parseHexDigit h2, parseHexDigit h3, parseHexDigit h4 with
              | some a, some b, some c2, some d =>
                match parseJsonString f rest3 (pos + 6) with
                | .ok (sx, r2, p2) =>
                  .ok (Char.ofNat (((a * 16 + b) * 16 + c2) * 16 + d) :: sx, r2, p2)
                | .error err => .error err
              | _, _, _, _ => .error (.invalidEscape, pos)
            | _ => .error (.invalidEscape, pos)
          else .error (.invalidEscape, pos)
    else if c.toNat < 32 then .error (.invalidControlChar, pos)
    else
      match parseJsonString f rest (pos + 1) with
      | .ok (sx, r2, p2) => .ok (c :: sx, r2, p2)
      | .error err => .error err

def digitsToNat (ds : Str) : Nat := ds.foldl (fun acc c => acc * 10 + (c.toNat - '0'.toNat)) 0

/-- Parse a JSON number at the current position (first character is `-` or a
digit): optional minus, integer part without leading zeros, optional
fraction, optional exponent; a dot or exponent marker not followed by a
digit is not consumed. -/
def parseJsonNumber (input : Str) (pos : Nat) : Except (JsonErr × Nat) (ℚ × Str × Nat) :=
  let (neg, s1, p1) : Bool × Str × Nat :=
    match input with
    | '-' :: rest => (true, rest, pos + 1)
    | _ => (false, input, pos)
  let intPart : Option (Nat × Str × Nat) :=
    match s1 with
    | '0' :: rest => some (0, rest, p1 + 1)
    | c :: _ =>
      if c.isDigit then
        let ds := s1.takeWhile Char.isDigit
        some (digitsToNat ds, s1.drop ds.length, p1 + ds.length)
      else none
    | [] => none
  match intPart with
  | none => .error (.expectingValue, pos)
  | some (ip, s2, p2) =>
    let (q3, s3, p3) : ℚ × Str × Nat :=
      match s2 with
      | '.' :: rest =>
        let ds := rest.takeWhile Char.isDigit
        if ds.isEmpty then ((ip : ℚ), s2, p2)
        else ((ip : ℚ) + (digitsToNat ds : ℚ) / (10 : ℚ) ^ ds.length,
              rest.drop ds.length, p2 + 1 + ds.length)
      | _ => ((ip : ℚ), s2, p2)
    let (q4, s4, p4) : ℚ × Str × Nat :=
      match s3 with
      | e :: rest =>
        if e = 'e' ∨ e = 'E' then
          match rest with
          | '+' :: rest2 =>
            let ds := rest2.takeWhile Char.isDigit
            if ds.isEmpty then (q3, s3, p3)
            else (q3 * (10 : ℚ) ^ (digitsToNat ds : ℤ), rest2.drop ds.length, p3 + 2 + ds.length)
          | '-' :: rest2 =>
            let ds := rest2.takeWhile Char.isDigit
            if ds.isEmpty then (q3, s3, p3)
            else (q3 * (10 : ℚ) ^ (-(digitsToNat ds : ℤ)), rest2.drop ds.length,
                  p3 + 2 + ds.length)
          | _ =>
            let ds := rest.takeWhile Char.isDigit
            if ds.isEmpty then (q3, s3, p3)
            else (q3 * (10 : ℚ) ^ (digitsToNat ds : ℤ), rest.drop ds.length, p3 + 1 + ds.length)
        else (q3, s3, p3)
      | [] => (q3, s3, p3)
    .ok (if neg then -q4 else q4, s4, p4)

/-- The three mutually recursive parsing tasks, combined into one fuelled
function so that the recursion is structural on the fuel: a value, the
members of an object (after at least one member is required), or the
elements of an array (after at least one element is required). -/
inductive ParseTask where
  | value (s : Str) (pos : Nat)
  | members (s : Str) (pos : Nat) (acc : List (Str × Json))
  | elems (s : Str) (pos : Nat) (acc : List Json)

def parseJ : Nat → ParseTask → Except (JsonErr × Nat) (Json × Str × Nat)
  | 0, .value _ pos | 0, .members _ pos _ | 0, .elems _ pos _ => .error (.outOfFuel, pos)
  | f+1, .value input pos =>
    let (s, p) := skipJsonWs input pos
    match s with
    | [] => .error (.expectingValue, p)
    | '{' :: rest =>
      let (s1, p1) := skipJsonWs rest (p + 1)
      match s1 with
      | '}' :: rest1 => .ok (.obj [], rest1, p1 + 1)
      | _ => parseJ f (.members s1 p1 [])
    | '[' :: rest =>
      let (s1, p1) := skipJsonWs rest (p + 1)
      match s1 with
      | ']' :: rest1 => .ok (.arr [], rest1, p1 + 1)
      | _ => parseJ f (.elems s1 p1 [])
    | '"' :: rest =>
      match parseJsonString (rest.length + 1) rest (p + 1) with
      | .ok (sx, r2, p2) => .ok (.str sx, r2, p2)
      | .error err => .error err
    | 't' :: rest =>
      if "rue".data.isPrefixOf rest then .ok (.bool true, rest.drop 3, p + 4)
      else .error (.expectingValue, p)
    | 'f' :: rest =>
      if "alse".data.isPrefixOf rest then .ok (.bool false, rest.drop 4, p + 5)
      else .error (.expectingValue, p)
    | 'n' :: rest =>
      if "ull".data.isPrefixOf rest then .ok (.null, rest.drop 3, p + 4)
      else .error (.expectingValue, p)
    | c :: _ =>
      if c = '-' ∨ c.isDigit then
        match parseJsonNumber s p with
        | .ok (q, r2, p2) => .ok (.num q, r2, p2)
        | .error err => .error err
      else .error (.expectingValue, p)
  | f+1, .members s p acc =>
    match s with
    | '"' :: rest =>
      match parseJsonString (rest.length + 1) rest (p + 1) with
      | .error err => .error err
      | .ok (key, s2, p2) =>
        let (s3, p3) := skipJsonWs s2 p2
        match s3 with
        | ':' :: rest3 =>
          match parseJ f (.value rest3 (p3 + 1)) with
          | .error err => .error err
          | .ok (v, s4, p4) =>
            let (s5, p5) := skipJsonWs s4 p4
            match s5 with
            | ',' :: rest5 =>
              let (s6, p6) := skipJsonWs rest5 (p5 + 1)
              parseJ f (.members s6 p6 (acc ++ [(key, v)]))
            | '}' :: rest5 => .ok (.obj (acc ++ [(key, v)]), rest5, p5 + 1)
            | _ => .error (.expectingCommaDelimiter, p5)
        | _ => .error (.expectingColonDelimiter, p3)
    | _ => .error (.expectingPropertyName, p)
  | f+1, .elems s p acc =>
    match parseJ f (.value s p) with
    | .error err => .error err
    | .ok (v, s2, p2) =>
      let (s3, p3) := skipJsonWs s2 p2
      match s3 with
      | ',' :: rest3 => parseJ f (.elems rest3 (p3 + 1) (acc ++ [v]))
      | ']' :: rest3 => .ok (.arr (acc ++ [v]), rest3, p3 + 1)
      | _ => .error (.expectingCommaDelimiter, p3)

/-- Model of `json.loads`: parse one value and require only whitespace after it. -/
def json_loads (text : Str) : Except (JsonErr × Nat) Json :=
  match parseJ (text.length + 1) (.value text 0) with
  | .error err => .error err
  | .ok (v, rest, p) =>
    let (rest2, p2) := skipJsonWs rest p
    if rest2.isEmpty then .ok v else .error (.extraData, p2)

/-! ### The repair passes of `JSONFixer.fix_json`, in source order. -/

/-- Step 0: trim everything before the first `{`/`[` and after the last
`}`/`]` (each trim only when it removes something, as in the source). -/
def step_trim (t : Str) : Str :=
  let t1 :=
    match t.findIdx? fun c => c = '{' || c = '[' with
    | some i => if 0 < i then t.drop i else t
    | none => t
  match t1.reverse.findIdx? fun c => c = '}' || c = ']' with
  | some j =>
    let jend := t1.length - j
    if 0 < jend ∧ jend < t1.length then t1.take jend else t1
  | none => t1

/-- Step 1: smart quotes to plain quotes. -/
def step_quotes (t : Str) : Str :=
  t.map fun c =>
    if c = '“' ∨ c = '”' then '"'
    else if c = '‘' ∨ c = '’' then '\'' else c

/-- Step 2: em dash to `--`, en dash to `-`. -/
def step_dashes (t : Str) : Str :=
  t.flatMap fun c =>
    if c = '—' then ['-', '-'] else if c = '–' then ['-'] else [c]

/-- Step 3: `re.sub(r',\s*([}\]])', r'\1', ...)` — drop a comma (and the
whitespace after it) directly before a closing bracket. -/
def removeTrailingCommas : Nat → Str → Str
  | 0, t => t
  | _, [] => []
  | f+1, c :: rest =>
    if c = ',' then
      let ws := rest.takeWhile pySpace
      match rest.drop ws.length with
      | b :: rest2 =>
        if b = '}' ∨ b = ']' then b :: removeTrailingCommas f rest2
        else c :: removeTrailingCommas f rest
      | [] => c :: removeTrailingCommas f rest
    else c :: removeTrailingCommas f rest

/-- Step 4: `}\s*{` → `},{` (and with `]`/`[`): insert the missing comma,
discarding the matched whitespace. -/
def insertCommaBetween (closec openc : Char) : Nat → Str → Str
  | 0, t => t
  | _, [] => []
  | f+1, c :: rest =>
    if c = closec then
      let ws := rest.takeWhile pySpace
      match rest.drop ws.length with
      | b :: rest2 =>
        if b = openc then c :: ',' :: b :: insertCommaBetween closec openc f rest2
        else c :: insertCommaBetween closec openc f rest
      | [] => c :: insertCommaBetween closec openc f rest
    else c :: insertCommaBetween closec openc f rest

def pyAsciiLetter (c : Char) : Bool := ('a' ≤ c && c ≤ 'z') || ('A' ≤ c && c ≤ 'Z')

/-- Step 6: `}\s*[a-zA-Z]\s*{` → `},{` — drop a stray single letter between
two objects. -/
def removeStrayBetween : Nat → Str → Str
  | 0, t => t
  | _, [] => []
  | f+1, c :: rest =>
    if c = '}' then
      let ws := rest.takeWhile pySpace
      match rest.drop ws.length with
      | b :: rest2 =>
        if pyAsciiLetter b then
          let ws2 := rest2.takeWhile pySpace
          match rest2.drop ws2.length with
          | b2 :: rest3 =>
            if b2 = '{' then c :: ',' :: b2 :: removeStrayBetween f rest3
            else c :: removeStrayBetween f rest
          | [] => c :: removeStrayBetween f rest
        else c :: removeStrayBetween f rest
      | [] => c :: removeStrayBetween f rest
    else c :: removeStrayBetween f rest

def pyIdentStart (c : Char) : Bool := pyAsciiLetter c || c = '_'

def pyIdentChar (c : Char) : Bool := pyAsciiLetter c || c.isDigit || c = '_'

/-- Steps 7 and the `Expecting property name` retry fix:
`([,{]\s*)([a-zA-Z_][a-zA-Z0-9_]*)\s*:` → `\1"\2":` — quote a bare property
name after `{` or `,` (the whitespace before the colon is dropped). -/
def quotePropertyNames : Nat → Str → Str
  | 0, t => t
  | _, [] => []
  | f+1, c :: rest =>
    if c = ',' ∨ c = '{' then
      let ws := rest.takeWhile pySpace
      let r1 := rest.drop ws.length
      match r1 with
      | a :: _ =>
        if pyIdentStart a then
          let ident := r1.takeWhile pyIdentChar
          let r2 := r1.drop ident.length
          let ws2 := r2.takeWhile pySpace
          match r2.drop ws2.length with
          | ':' :: r3 =>
            c :: ws ++ '"' :: ident ++ '"' :: ':' :: quotePropertyNames f r3
          | _ => c :: quotePropertyNames f rest
        else c :: quotePropertyNames f rest
      | [] => c :: quotePropertyNames f rest
    else c :: quotePropertyNames f rest

/-- Step 8: remove byte-order marks and zero-width spaces. -/
def step_zerowidth (t : Str) : Str := t.filter fun c => !(c = '\ufeff' || c = '\u200b')

/-- Step 9a: escape literal newlines, carriage returns and tabs. -/
def escapeControls (t : Str) : Str :=
  t.flatMap fun c =>
    if c = '\n' then ['\\', 'n']
    else if c = '\r' then ['\\', 'r']
    else if c = '\t' then ['\\', 't'] else [c]

/-- Python `t.replace(pat, rp)`: leftmost non-overlapping replacement. -/
def strReplace (pat rp : Str) : Nat → Str → Str
  | 0, t => t
  | _, [] => []
  | f+1, c :: rest =>
    if !pat.isEmpty && pat.isPrefixOf (c :: rest) then
      rp ++ strReplace pat rp f ((c :: rest).drop pat.length)
    else c :: strReplace pat rp f rest

/-- Embedding of `JSONFixer.fix_json`: the repair passes in source order. -/
def fix_json (t : Str) : Str :=
  let t := step_trim t
  let t := step_quotes t
  let t := step_dashes t
  let t := removeTrailingCommas t.length t
  let t := insertCommaBetween '}' '{' t.length t
  let t := insertCommaBetween ']' '[' t.length t
  let t := removeStrayBetween t.length t
  let t := quotePropertyNames t.length t
  let t := step_zerowidth t
  let t := escapeControls t
  let t := strReplace ['\\', '\\', 'n'] ['\\', 'n'] t.length t
  let t := strReplace ['\\', '\\', 'r'] ['\\', 'r'] t.length t
  let t := strReplace ['\\', '\\', 't'] ['\\', 't'] t.length t
  t

/-- The targeted extra fix `parse_with_fixes` applies for each parse-error
message (property-name quoting; comma insertion before the reported
position when the previous character closes a bracket; backslash doubling;
nothing for an unterminated string or any other error). -/
def applyErrorFix (e : JsonErr) (pos : Nat) (t : Str) : Str :=
  match e with
  | .expectingPropertyName => quotePropertyNames t.length t
  | .expectingCommaDelimiter =>
    if 0 < pos ∧ pos < t.length then
      match t.get? (pos - 1) with
      | some c => if c = '}' ∨ c = ']' then t.take pos ++ ',' :: t.drop pos else t
      | none => t
    else t
  | .invalidEscape => t.flatMap fun c => if c = '\\' then ['\\', '\\'] else [c]
  | _ => t

/-- The retry loop of `parse_with_fixes` (`for attempt in range(5)`). -/
def attemptLoop : Nat → Str → Option Json
  | 0, _ => none
  | n+1, fixed =>
    match json_loads fixed with
    | .ok v => some v
    | .error (e, pos) => attemptLoop n (applyErrorFix e pos fixed)

/-! ### `JSONFixer._extract_structure`: regex recovery from broken text. -/

/-- Try to match `"FIELD"\s*:\s*"([^"]+)"` at the start of `s`; on success
return the (non-empty) captured group and the text after the closing quote. -/
def matchFieldAt (field : Str) (s : Str) : Option (Str × Str) :=
  if ('"' :: field ++ ['"']).isPrefixOf s then
    match (s.drop (field.length + 2)).dropWhile pySpace with
    | ':' :: r2 =>
      match r2.dropWhile pySpace with
      | '"' :: r3 =>
        let content := r3.takeWhile fun c => c ≠ '"'
        if content.isEmpty then none
        else if (r3.drop content.length).isEmpty then none
        else some (content, r3.drop (content.length + 1))
      | _ => none
    | _ => none
  else none

/-- Model of `re.search` for the quoted-field pattern: first matching position. -/
def searchField (field : Str) : Str → Option Str
  | [] => none
  | s@(_ :: rest) =>
    match matchFieldAt field s with
    | some r => some r.1
    | none => searchField field rest

/-- The greedy `[^}]*` gap of the chapter pattern: try the body match at the
largest offset inside the gap first, backtracking downwards. -/
def tryBodyAt (rest0 : Str) : Nat → Option (Str × Str)
  | 0 => matchFieldAt "body".data rest0
  | o+1 =>
    match matchFieldAt "body".data (rest0.drop (o + 1)) with
    | some r => some r
    | none => tryBodyAt rest0 o

/-- Model of `re.finditer` of the chapter pattern (heading, a gap matched by `[^}]*`, body):
non-overlapping leftmost matches; the gap between heading and body may not
cross a `}`. -/
def extractChapters : Nat → Str → List (Str × Str)
  | 0, _ => []
  | _, [] => []
  | f+1, s@(_ :: rest) =>
    match matchFieldAt "heading".data s with
    | some (heading, rest0) =>
      let gap := rest0.takeWhile fun c => c ≠ '}'
      match tryBodyAt rest0 gap.length with
      | some (body, after) => (heading, body) :: extractChapters f after
      | none => extractChapters f rest
    | none => extractChapters f rest

/-- Try to match `"broll_keywords"\s*:\s*\[([^\]]+)\]` at the start of `s`. -/
def matchKeywordsAt (s : Str) : Option Str :=
  let field := "broll_keywords".data
  if ('"' :: field ++ ['"']).isPrefixOf s then
    match (s.drop (field.length + 2)).dropWhile pySpace with
    | ':' :: r2 =>
      match r2.dropWhile pySpace with
      | '[' :: r3 =>
        let content := r3.takeWhile fun c => c ≠ ']'
        if content.isEmpty then none
        else if (r3.drop content.length).isEmpty then none
        else some content
      | _ => none
    | _ => none
  else none

def searchKeywords : Str → Option Str
  | [] => none
  | s@(_ :: rest) =>
    match matchKeywordsAt s with
    | some r => some r
    | none => searchKeywords rest

/-- Python `k.strip()`. -/
def pyStripWs (s : Str) : Str := ((s.dropWhile pySpace).reverse.dropWhile pySpace).reverse

/-- Python `k.strip('"')`. -/
def pyStripQuotes (s : Str) : Str :=
  ((s.dropWhile fun c => c = '"').reverse.dropWhile fun c => c = '"').reverse

/-- Python `keyword_text.split(',')`. -/
def splitComma : Str → List Str
  | [] => [[]]
  | ',' :: rest => [] :: splitComma rest
  | c :: rest =>
    let r := splitComma rest
    (c :: r.headD []) :: r.tail

/-- The `narration` sub-object `_extract_structure` builds: intro defaulting
to the empty string, the recovered chapters, outro defaulting to
`"Thanks for watching!"`. -/
def extract_structure_narration (text : Str) : Json :=
  Json.obj
    [("intro".data, .str ((searchField "intro".data text).getD [])),
     ("chapters".data, .arr ((extractChapters text.length text).map fun ch =>
       .obj [("heading".data, .str ch.1), ("body".data, .str ch.2)])),
     ("outro".data, .str ((searchField "outro".data text).getD "Thanks for watching!".data))]

/-- Embedding of `JSONFixer._extract_structure`: recover a minimal `script.v1` object from
arbitrary text. -/
def extract_structure (text : Str) : Json :=
  let title := searchField "title".data text
  let hook := searchField "hook".data text
  let keywords :=
    match searchKeywords text with
    | some content => (splitComma content).map fun k => pyStripQuotes (pyStripWs k)
    | none => []
  Json.obj
    [("version".data, .str "script.v1".data),
     ("title".data, .str (title.getD "Untitled".data)),
     ("hook".data, .str (hook.getD [])),
     ("narration".data, extract_structure_narration text),
     ("broll_keywords".data, .arr (keywords.map .str)),
     ("policy_checklist".data, .obj
       [("copyright_risk".data, .bool false),
        ("medical_or_financial_claims".data, .bool false),
        ("nsfw".data, .bool false),
        ("shocking_or_graphic".data, .bool false)])]

/-- Embedding of `JSONFixer.parse_with_fixes`: parse as-is; on failure apply `fix_json`
and retry up to 5 times, applying the targeted per-error fix between
attempts; as a last resort recover a structure from the raw text (the
recovery is total, so the Python `except: return None` branch is
unreachable and the function never raises). -/
def parse_with_fixes (text : Str) : Option Json :=
  match json_loads text with
  | .ok v => some v
  | .error _ =>
    match attemptLoop 5 (fix_json text) with
    | some v => some v
    | none => some (extract_structure text)

/-- Dictionary lookup on a JSON object (`None` on any other value). -/
def jsonLookup (j : Json) (key : Str) : Option Json :=
  match j with
  | .obj ms => (ms.find? fun m => m.1 == key).map Prod.snd
  | _ => none

/-- Is this JSON value a non-empty string? -/
def jsonNonEmptyString : Option Json → Bool
  | some (.str (_ :: _)) => true
  | _ => false

/-! ## Concrete fixtures used by the boundary instances below. -/

/-- A hook of exactly 825 words (`"hi "` repeated). -/
def hook825 : Str := (List.replicate 825 ['h', 'i', ' ']).flatten

/-- A script whose narration text is 825 words, all in the hook. -/
def script825 : Script :=
  ⟨some "script.v1".data, some "T".data, some hook825,
   some ⟨some [], some [], some []⟩, some [], some [], none⟩

/-- A script dictionary with every key absent. -/
def emptyScript : Script := ⟨none, none, none, none, none, none, none⟩

/-- A script whose only present key is an empty narration object. -/
def scriptNarrOnly : Script := ⟨none, none, none, some ⟨none, none, none⟩, none, none, none⟩

/-- A script with one chapter whose heading is present but empty. -/
def scriptEmptyHeading : Script :=
  ⟨none, none, none, some ⟨none, some [⟨some [], some ['x']⟩], none⟩, none, none, none⟩

/-- A content policy with one banned term and no sensitive topics. -/
def policy1 : ContentPolicy := ⟨["murder".data], []⟩

/-- The boundary post of the suitability claim: title of exactly 19
characters, 200 characters of self-text, Reddit score 5000, upvote ratio
0.95, an external link, and no banned or sensitive terms in its text. -/
def post19 : Post :=
  ⟨some "abcdefghijklmnopqrs".data, some (List.replicate 200 'x'),
   some "https://example.org/a".data, none, none, some 5000, some (19/20)⟩

/-- The same boundary post whose 200-character self-text additionally
contains the banned term once. -/
def post19banned : Post :=
  ⟨some "abcdefghijklmnopqrs".data, some ("murder ".data ++ List.replicate 193 'x'),
   some "https://example.org/a".data, none, none, some 5000, some (19/20)⟩

/-- A single-topic rule set with five keywords. -/
def rulesTech : TopicRules :=
  [("tech".data, ["aa".data, "bb".data, "cc".data, "dd".data, "ee".data])]

/-- A post whose text blob contains 10 keyword occurrences, 5 distinct, and
whose subreddit matches nothing. -/
def postKeywords : Post :=
  ⟨none, some "aa bb cc dd ee aa bb cc dd ee".data, none, none, none, none, none⟩

/-- Malformed JSON with a trailing comma before the closing brace. -/
def trailingCommaInput : Str := "\x7b\"a\":1,\x7d".data


/-! # Theorems -/

theorem maxLen_cons (s : Str) (ss : List Str) :
    maxLen (s :: ss) = max s.length (maxLen ss) := rfl

theorem packLoop_mem (mc : Nat) :
    ∀ (ss : List Str) (cur : Str), ∀ chunk ∈ packLoop mc ss cur,
      chunk.getLast? = some '.' ∧
      chunk.length ≤ max mc (maxLen (cur :: ss)) + 1 := by
  intro ss
  induction ss with
  | nil =>
    intro cur chunk hmem
    unfold packLoop at hmem
    by_cases hcur : cur.isEmpty
    · simp [hcur] at hmem
    · simp [hcur] at hmem
      by_cases hdot : pyEndsWithDot cur
      · rw [if_pos hdot] at hmem
        subst hmem
        refine ⟨eq_of_beq hdot, ?_⟩
        simp only [maxLen, List.foldr_cons, List.foldr_nil]
        omega
      · rw [if_neg hdot] at hmem
        subst hmem
        refine ⟨List.getLast?_concat _, ?_⟩
        simp only [List.length_append, List.length_singleton, maxLen, List.foldr_cons,
          List.foldr_nil]
        omega
  | cons s rest ih =>
    intro cur chunk hmem
    unfold packLoop at hmem
    by_cases h1 : cur.length + s.length + 2 ≤ mc
    · rw [if_pos h1] at hmem
      by_cases h2 : cur.isEmpty
      · rw [if_pos h2] at hmem
        obtain ⟨hdot, hlen⟩ := ih s chunk hmem
        refine ⟨hdot, le_trans hlen ?_⟩
        simp only [maxLen_cons] at *
        omega
      · rw [if_neg h2] at hmem
        obtain ⟨hdot, hlen⟩ := ih _ chunk hmem
        refine ⟨hdot, le_trans hlen ?_⟩
        simp only [maxLen_cons, List.length_append, List.length_cons] at *
        omega
    · rw [if_neg h1] at hmem
      by_cases h2 : cur.isEmpty
      · rw [if_pos h2] at hmem
        obtain ⟨hdot, hlen⟩ := ih s chunk hmem
        refine ⟨hdot, le_trans hlen ?_⟩
        simp only [maxLen_cons] at *
        omega
      · rw [if_neg h2] at hmem
        rcases List.mem_cons.mp hmem with h | h
        · subst h
          refine ⟨List.getLast?_concat _, ?_⟩
          simp only [List.length_append, List.length_singleton, maxLen_cons]
          omega
        · obtain ⟨hdot, hlen⟩ := ih s chunk h
          refine ⟨hdot, le_trans hlen ?_⟩
          simp only [maxLen_cons] at *
          omega

/-- C2 (amended): `split_text_for_api` packs the `". "`-split sentences
greedily; every returned chunk ends with a period, and every returned chunk's
length is bounded by `max max_chars L + 1`, where `L` is the length of the
longest sentence in the split.  (The bound `max_chars` itself claimed by the
spec fails: a single sentence longer than the limit is emitted whole, and the
appended closing period can exceed the limit by one.) -/
theorem split_text_for_api_chunks (text : Str) (max_chars : Nat) :
    ∀ chunk ∈ split_text_for_api text max_chars,
      chunk.getLast? = some '.' ∧
      chunk.length ≤
        max max_chars
          (maxLen (splitDotSpace (text.map fun c => if c = '\n' then ' ' else c))) + 1 := by
  intro chunk hmem
  obtain ⟨hdot, hlen⟩ := packLoop_mem max_chars _ [] chunk hmem
  refine ⟨hdot, le_trans hlen ?_⟩
  simp only [maxLen_cons, List.length_nil]
  omega

/-- Witness for C2: on `"Hi. Yo"` with the default limit 5000, the single
returned chunk `"Hi. Yo."` ends with a period and satisfies the length bound. -/
theorem split_text_for_api_chunks_witness :
    ("Hi. Yo.".data).getLast? = some '.' ∧
    ("Hi. Yo.".data).length ≤
      max 5000
        (maxLen (splitDotSpace (("Hi. Yo".data).map fun c => if c = '\n' then ' ' else c))) + 1 :=
  split_text_for_api_chunks "Hi. Yo".data 5000 "Hi. Yo.".data (by decide)

/-- C2 counterexample: with `max_chars = 5`, the six-character sentence
`"aaaaaa"` (no `". "` separator anywhere) is emitted as the chunk `"aaaaaa."`
of length 7, so not every chunk's length stays within `max_chars`. -/
theorem split_text_for_api_counterexample :
    ¬ ∀ chunk ∈ split_text_for_api "aaaaaa".data 5, chunk.length ≤ 5 := by
  decide

/-! ### C6 — mock-audio fidelity (`_generate_mock_audio`) -/

/-- C6 (amended): the mock generator depends on the text only through its word
count: it returns exactly `(w/165)*60` seconds, and the WAV file it writes
measures `⌊44100·d⌋/44100` seconds — never more than the returned duration and
short of it by less than one sample period (`1/44100` s). The spec's
"equals up to floating-point rounding" fails: the `int()` truncation of the
sample count loses up to one sample period, far above rounding error. -/
theorem mock_audio_fidelity (text : Str) :
    mock_audio_duration text = ((wordCount text : ℚ) / 165) * 60 ∧
    mock_audio_measured_duration text ≤ mock_audio_duration text ∧
    mock_audio_duration text - mock_audio_measured_duration text < 1 / 44100 ∧
    (∀ t2 : Str, wordCount t2 = wordCount text →
      mock_audio_num_samples t2 = mock_audio_num_samples text ∧
      mock_audio_duration t2 = mock_audio_duration text) := by
  have hd : (0 : ℚ) ≤ mock_audio_duration text := by
    rw [mock_audio_duration]; positivity
  have hx0 : (0 : ℚ) ≤ 44100 * mock_audio_duration text := by positivity
  have hfl : (0 : ℤ) ≤ ⌊(44100 : ℚ) * mock_audio_duration text⌋ := Int.floor_nonneg.mpr hx0
  have hnum : ((⌊(44100 : ℚ) * mock_audio_duration text⌋.toNat : ℕ) : ℚ) =
      ((⌊(44100 : ℚ) * mock_audio_duration text⌋ : ℤ) : ℚ) := by
    exact_mod_cast Int.toNat_of_nonneg hfl
  have hlow : ((⌊(44100 : ℚ) * mock_audio_duration text⌋ : ℤ) : ℚ) ≤
      44100 * mock_audio_duration text := Int.floor_le _
  have hhigh : 44100 * mock_audio_duration text <
      ((⌊(44100 : ℚ) * mock_audio_duration text⌋ : ℤ) : ℚ) + 1 := Int.lt_floor_add_one _
  refine ⟨rfl, ?_, ?_, ?_⟩
  · rw [mock_audio_measured_duration, mock_audio_num_samples, hnum]
    linarith
  · rw [mock_audio_measured_duration, mock_audio_num_samples, hnum]
    linarith
  · intro t2 h
    constructor
    · rw [mock_audio_num_samples, mock_audio_num_samples, mock_audio_duration,
        mock_audio_duration, h]
    · rw [mock_audio_duration, mock_audio_duration, h]

/-- Witness for C6 at the one-word texts `"hi"` and `"yo"`. -/
theorem mock_audio_fidelity_witness :
    mock_audio_measured_duration "hi".data ≤ mock_audio_duration "hi".data ∧
    mock_audio_num_samples "yo".data = mock_audio_num_samples "hi".data :=
  ⟨(mock_audio_fidelity "hi".data).2.1,
   ((mock_audio_fidelity "hi".data).2.2.2 "yo".data (by decide)).1⟩

/-- C6 counterexample: for the one-word text `"hi"` the formula gives `4/11` s
while the WAV holds 16036 frames (`16036/44100` s); the gap exceeds one
microsecond, orders of magnitude above floating-point rounding at this scale,
so the measured duration is not equal to the formula. -/
theorem mock_audio_measured_counterexample :
    mock_audio_measured_duration "hi".data ≠ mock_audio_duration "hi".data ∧
    mock_audio_duration "hi".data - mock_audio_measured_duration "hi".data > 1 / 1000000 := by
  have h : wordCount "hi".data = 1 := by decide
  have e1 : mock_audio_duration "hi".data = 4 / 11 := by
    rw [mock_audio_duration, h]; norm_num
  have e2 : mock_audio_measured_duration "hi".data = 16036 / 44100 := by
    rw [mock_audio_measured_duration, mock_audio_num_samples, e1]
    norm_num [show (16036 : ℤ).toNat = 16036 from rfl]
  rw [e1, e2]
  constructor <;> norm_num

/-! ### C5 — the duration law (`calculate_duration`) -/

/-- C5: for a script whose hook, narration intro, chapter bodies and narration
outro together contain `w` words, `calculate_duration` returns
`round(w/165, 1)` minutes exactly. -/
theorem calculate_duration_law (s : Script) (w : ℕ)
    (h : total_narration_words s = w) :
    calculate_duration s = pyRound1 ((w : ℚ) / 165) := by
  rw [calculate_duration, h]

theorem wordCount_replicate_hi (n : ℕ) :
    wordCount ((List.replicate n ['h', 'i', ' ']).flatten) = n := by
  induction n with
  | zero => rfl
  | succ k ih =>
    rw [List.replicate_succ, List.flatten_cons]
    show wordCountAux ('h' :: 'i' :: ' ' :: (List.replicate k ['h', 'i', ' ']).flatten) false
      = k + 1
    rw [wordCount] at ih
    simp +decide [wordCountAux, pySpace]
    omega

/-- Witness for C5: a script of exactly 825 narration words reports
`round(825/165, 1) = 5.0` minutes. -/
theorem calculate_duration_law_witness :
    total_narration_words script825 = 825 ∧ calculate_duration script825 = 5 := by
  have hw : total_narration_words script825 = 825 := by
    have h1 : script825.hook = some hook825 := rfl
    rw [total_narration_words, h1, Option.getD_some, hook825, wordCount_replicate_hi]
    rfl
  refine ⟨hw, ?_⟩
  rw [calculate_duration_law script825 825 hw]
  have h5 : ((825 : ℕ) : ℚ) / 165 = 5 := by norm_num
  rw [h5, pyRound1, pyRound]
  norm_num [Int.fract]

/-! ### C4 — `_validate_script` backfilling -/

/-- C4 (amended): `_validate_script` backfills each missing backfillable
top-level field with its default (`version = "script.v1"`, `disclaimers = []`,
the non-empty `broll_keywords` default, the all-false policy checklist), keeps
present fields, backfills the narration sub-fields `intro`, `chapters` and
`outro` provided the `narration` field itself is present — a script with no
`narration` field keeps it absent — and truncates a present title to at most
100 characters. -/
theorem validate_script_backfills (s : Script) :
    (s.version = none → (validate_script s).version = some "script.v1".data) ∧
    (∀ v, s.version = some v → (validate_script s).version = some v) ∧
    (s.disclaimers = none → (validate_script s).disclaimers = some []) ∧
    (s.broll_keywords = none →
      (validate_script s).broll_keywords = some ["general".data, "content".data] ∧
      (["general".data, "content".data] : List Str) ≠ []) ∧
    (s.policy_checklist = none →
      (validate_script s).policy_checklist = some ⟨false, false, false, false⟩) ∧
    (∀ n, s.narration = some n →
      (validate_script s).narration =
        some ⟨some (n.intro.getD "Welcome to our video!".data),
              some (n.chapters.getD []),
              some (n.outro.getD "Thanks for watching!".data)⟩) ∧
    (s.narration = none → (validate_script s).narration = none) ∧
    (validate_script s).title = s.title.map (fun t => t.take 100) ∧
    (∀ t, (validate_script s).title = some t → t.length ≤ 100) := by
  refine ⟨?_, ?_, ?_, ?_, ?_, ?_, ?_, rfl, ?_⟩
  · intro h; simp [validate_script, h]
  · intro v h; simp [validate_script, h]
  · intro h; simp [validate_script, h]
  · intro h; simp [validate_script, h]
  · intro h; simp [validate_script, h]
  · intro n h
    rcases n with ⟨i, cs, o⟩
    rcases i with _ | iv <;> rcases cs with _ | cv <;> rcases o with _ | ov <;>
      simp [validate_script, h]
  · intro h; simp [validate_script, h]
  · intro t ht
    simp only [validate_script] at ht
    obtain ⟨u, _, hu⟩ := Option.map_eq_some'.mp ht
    rw [← hu]
    simp [List.length_take]
/-- Witness for C4: on a script whose only present field is an empty narration
object, validation backfills the version and the narration sub-fields. -/
theorem validate_script_backfills_witness :
    (validate_script scriptNarrOnly).version = some "script.v1".data ∧
    (validate_script scriptNarrOnly).narration =
      some ⟨some ((none : Option Str).getD "Welcome to our video!".data),
            some ((none : Option (List Chapter)).getD []),
            some ((none : Option Str).getD "Thanks for watching!".data)⟩ :=
  ⟨(validate_script_backfills scriptNarrOnly).1 rfl,
   (validate_script_backfills scriptNarrOnly).2.2.2.2.2.1 ⟨none, none, none⟩ rfl⟩

/-- C4 counterexample: validating a script with no `narration` key at all does
not make the required narration sub-field `intro` present — the claim's
"each of the two required narration sub-fields intro and outro that was
missing is present with a default" fails for the empty script dictionary. -/
theorem validate_script_counterexample :
    narrationIntroPresent (validate_script emptyScript) = false := rfl

/-! ### C10 — narration text versus counted duration words -/

theorem wordCountAux_sep_append (a b : Str) (i : Bool) :
    wordCountAux (a ++ '\n' :: '\n' :: b) i = wordCountAux a i + wordCountAux b false := by
  induction a generalizing i with
  | nil => simp +decide [wordCountAux, pySpace]
  | cons c rest ih =>
    simp only [List.cons_append, List.append_eq, wordCountAux]
    by_cases h : pySpace c = true
    · rw [if_pos h, if_pos h, ih]
    · rw [if_neg h, if_neg h, ih]
      omega

/-- Joining parts with a blank line adds up their word counts. -/
theorem wordCount_joinSep (parts : List Str) :
    wordCount (joinSep parts) = (parts.map wordCount).sum := by
  induction parts with
  | nil => rfl
  | cons p rest ih =>
    cases rest with
    | nil => simp [joinSep]
    | cons q rest2 =>
      show wordCount (p ++ '\n' :: '\n' :: joinSep (q :: rest2)) = _
      rw [wordCount, wordCountAux_sep_append]
      show wordCount p + wordCount (joinSep (q :: rest2)) = _
      rw [ih]
      simp

theorem chapters_words (chs : List Chapter) :
    (((chs.map chapterParts).flatten).map wordCount).sum =
      (chs.map fun ch => wordCount (ch.body.getD [])).sum +
      (chs.map headingWords).sum := by
  induction chs with
  | nil => rfl
  | cons ch rest ih =>
    rcases ch with ⟨hd, bd⟩
    simp only [List.map_cons, List.flatten_cons, List.map_append, List.sum_append,
      List.sum_cons, ih, chapterParts, headingWords]
    rcases hd with _ | h <;> rcases bd with _ | b <;>
      simp [wordCount, wordCountAux] <;> omega

/-- The words of the narration text `_extract_narration` builds are exactly
the words `calculate_duration` counts plus, for each chapter with a heading
key, the words of `heading + "."`. -/
theorem narration_words_decomposition (s : Script) :
    wordCount (extract_narration s) = total_narration_words s + extraHeadingWords s := by
  rw [extract_narration, wordCount_joinSep, narrationParts]
  rw [List.map_append, List.map_append, List.map_append,
    List.sum_append, List.sum_append, List.sum_append]
  rw [chapters_words (scriptChapters s)]
  have hhook : ((match s.hook with
      | none => ([] : List Str)
      | some h => [h, []]).map wordCount).sum = wordCount (s.hook.getD []) := by
    cases s.hook <;> simp [wordCount, wordCountAux]
  have hintro : ((match s.narration with
      | none => ([] : List Str)
      | some n =>
        match n.intro with
        | none => []
        | some i => [i, []]).map wordCount).sum = wordCount (narrationIntro s) := by
    rcases hn : s.narration with _ | n
    · simp [narrationIntro, hn, wordCount, wordCountAux]
    · rcases hi : n.intro with _ | iv <;>
        simp [narrationIntro, hn, hi, wordCount, wordCountAux]
  have houtro : ((match s.narration with
      | none => ([] : List Str)
      | some n =>
        match n.outro with
        | none => []
        | some o => [o]).map wordCount).sum = wordCount (narrationOutro s) := by
    rcases hn : s.narration with _ | n
    · simp [narrationOutro, hn, wordCount, wordCountAux]
    · rcases ho : n.outro with _ | ov <;>
        simp [narrationOutro, hn, ho, wordCount, wordCountAux]
  rw [hhook, hintro, houtro, total_narration_words, extraHeadingWords]
  omega

theorem one_le_wordCount_concat_dot (h : Str) : 1 ≤ wordCount (h ++ ['.']) := by
  rw [wordCount]
  induction h with
  | nil => decide
  | cons c rest ih =>
    rw [List.cons_append]
    show 1 ≤ wordCountAux (c :: (rest ++ ['.'])) false
    simp only [wordCountAux]
    by_cases hc : pySpace c = true
    · rw [if_pos hc]; exact ih
    · rw [if_neg hc]
      exact Nat.le_add_right 1 _

theorem heading_sum_pos_iff (chs : List Chapter) :
    0 < (chs.map headingWords).sum ↔ ∃ ch ∈ chs, ch.heading.isSome := by
  induction chs with
  | nil => simp
  | cons ch rest ih =>
    simp only [List.map_cons, List.sum_cons]
    rcases hh : ch.heading with _ | h
    · have h0 : headingWords ch = 0 := by simp [headingWords, hh]
      rw [h0, Nat.zero_add, ih]
      constructor
      · rintro ⟨c, hc, hs⟩
        exact ⟨c, List.mem_cons_of_mem _ hc, hs⟩
      · rintro ⟨c, hc, hs⟩
        rcases List.mem_cons.mp hc with rfl | hc2
        · rw [hh] at hs; simp at hs
        · exact ⟨c, hc2, hs⟩
    · have h1 : 1 ≤ headingWords ch := by
        simp only [headingWords, hh]
        exact one_le_wordCount_concat_dot h
      constructor
      · intro _
        exact ⟨ch, List.mem_cons_self _ _, by rw [hh]; rfl⟩
      · intro _
        omega

/-- C10 (amended): the narration text handed to audio generation contains
each chapter's heading followed by a period on top of the words
`calculate_duration` counts, so the mock-audio duration is at least 60 times
the unrounded word-count duration, with strict excess exactly when some
chapter has a heading key at all — an empty heading still contributes the
lone period as one word. -/
theorem generate_audio_heading_excess (s : Script) :
    wordCount (extract_narration s) = total_narration_words s + extraHeadingWords s ∧
    60 * ((total_narration_words s : ℚ) / 165) ≤ generate_audio_mock_duration s ∧
    (60 * ((total_narration_words s : ℚ) / 165) < generate_audio_mock_duration s ↔
      ∃ ch ∈ scriptChapters s, ch.heading.isSome) := by
  have hdec := narration_words_decomposition s
  have hE : (0 : ℚ) ≤ (extraHeadingWords s : ℚ) := by positivity
  refine ⟨hdec, ?_, ?_⟩
  · rw [generate_audio_mock_duration, mock_audio_duration, hdec]
    push_cast
    linarith
  · rw [generate_audio_mock_duration, mock_audio_duration, hdec]
    push_cast
    constructor
    · intro hlt
      have hq : (0 : ℚ) < (extraHeadingWords s : ℚ) := by linarith
      have hn : 0 < extraHeadingWords s := by exact_mod_cast hq
      exact (heading_sum_pos_iff (scriptChapters s)).mp hn
    · intro hex
      have hn : 0 < extraHeadingWords s := (heading_sum_pos_iff (scriptChapters s)).mpr hex
      have hq : (0 : ℚ) < (extraHeadingWords s : ℚ) := by exact_mod_cast hn
      linarith

/-- C10 counterexample: a script whose single chapter has an *empty* heading
(`heading = ""`) still shows a strict mock-audio excess — the extracted text
gains the lone period — so "strict excess exactly when some chapter has a
non-empty heading" fails. -/
theorem generate_audio_excess_counterexample :
    60 * ((total_narration_words scriptEmptyHeading : ℚ) / 165) <
      generate_audio_mock_duration scriptEmptyHeading ∧
    ∀ ch ∈ scriptChapters scriptEmptyHeading, ch.heading = some [] := by
  constructor
  · have h1 : total_narration_words scriptEmptyHeading = 1 := by decide
    have h2 : wordCount (extract_narration scriptEmptyHeading) = 2 := by decide
    rw [generate_audio_mock_duration, mock_audio_duration, h2, h1]
    norm_num
  · decide

/-! ### C1 — suitability scoring boundary (`analyze_post_suitability`) -/

/-- Evaluation of `analyze_post_suitability` on the boundary profile of the
claim: 19-character title, 200-character self-text, score 5000, upvote ratio
0.95, no sensitive matches; with no banned match the result is score 80 but
*rejected* (the title deduction filed an issue); with exactly one banned match
the result is score 30 and rejected. -/
theorem analyze_boundary_profile (cfg : ContentPolicy) (p : Post) (t st : Str)
    (ht : p.title = some t) (hlen : t.length = 19)
    (hst : p.selftext = some st) (hstlen : st.length = 200)
    (hscore : p.score = some 5000)
    (hratio : p.upvote_ratio = some (19/20))
    (hsens : cfg.sensitive_topics.filter
      (fun topic => isInfixOfB (pyLower topic) (extract_text p)) = []) :
    (cfg.banned_terms.filter
        (fun term => isInfixOfB (pyLower term) (extract_text p)) = [] →
      analyze_post_suitability cfg p =
        ⟨false, 80, ["Title too short".data], [], "rejected".data, false⟩) ∧
    (∀ b, cfg.banned_terms.filter
        (fun term => isInfixOfB (pyLower term) (extract_text p)) = [b] →
      analyze_post_suitability cfg p =
        ⟨false, 30,
         ["Title too short".data,
          "Contains banned terms: ".data ++ joinCommaSpace [b]],
         [], "rejected".data, false⟩) := by
  have hstE : st.isEmpty = false := by
    cases st
    · simp at hstlen
    · rfl
  constructor
  · intro hban
    rw [analyze_post_suitability]
    simp only [ht, hst, hscore, hratio, hban, hsens, Option.getD_some, hlen, hstlen, hstE]
    norm_num
  · intro b hban
    rw [analyze_post_suitability]
    simp only [ht, hst, hscore, hratio, hban, hsens, Option.getD_some, hlen, hstlen, hstE]
    norm_num

/-- C1 (amended): on the boundary profile — title of exactly 19 characters,
Reddit score 5000, upvote ratio 0.95, 200 characters of self-text, no banned
or sensitive matches — `analyze_post_suitability` scores 80 (100 − 20) but
judges the post *unsuitable*: the same title check that deducts 20 points
also files a "Title too short" issue, and suitability requires an empty
issues list; with additionally exactly one banned term matched the score is
30 (≤ 30) and the post is again unsuitable. -/
theorem analyze_post_suitability_boundary (cfg : ContentPolicy) (p : Post) (t st : Str)
    (ht : p.title = some t) (hlen : t.length = 19)
    (hst : p.selftext = some st) (hstlen : st.length = 200)
    (hscore : p.score = some 5000)
    (hratio : p.upvote_ratio = some (19/20))
    (hsens : cfg.sensitive_topics.filter
      (fun topic => isInfixOfB (pyLower topic) (extract_text p)) = []) :
    (cfg.banned_terms.filter
        (fun term => isInfixOfB (pyLower term) (extract_text p)) = [] →
      (analyze_post_suitability cfg p).score = 80 ∧
      (analyze_post_suitability cfg p).is_suitable = false ∧
      (analyze_post_suitability cfg p).issues = ["Title too short".data]) ∧
    (∀ b, cfg.banned_terms.filter
        (fun term => isInfixOfB (pyLower term) (extract_text p)) = [b] →
      (analyze_post_suitability cfg p).score = 30 ∧
      (analyze_post_suitability cfg p).is_suitable = false) := by
  obtain ⟨h1, h2⟩ := analyze_boundary_profile cfg p t st ht hlen hst hstlen hscore hratio hsens
  constructor
  · intro hban
    rw [h1 hban]
    exact ⟨rfl, rfl, rfl⟩
  · intro b hban
    rw [h2 b hban]
    exact ⟨rfl, rfl⟩

/-- C1 counterexample: the concrete boundary post (19-character title, clean
200-character self-text, score 5000, ratio 0.95) is scored 80 as claimed but
judged *unsuitable* — `is_suitable` is false because the issues list holds
"Title too short" — contradicting the claim that it is judged suitable. -/
theorem analyze_post_suitability_counterexample :
    (analyze_post_suitability policy1 post19).score = 80 ∧
    (analyze_post_suitability policy1 post19).is_suitable = false ∧
    (analyze_post_suitability policy1 post19).issues = ["Title too short".data] := by
  obtain ⟨h1, _⟩ := analyze_boundary_profile policy1 post19
    "abcdefghijklmnopqrs".data (List.replicate 200 'x') rfl (by decide) rfl (by decide)
    rfl rfl (by decide)
  rw [h1 (by decide)]
  exact ⟨rfl, rfl, rfl⟩

/-- Witness for C1: both boundary instances, on the concrete posts. -/
theorem analyze_post_suitability_boundary_witness :
    ((analyze_post_suitability policy1 post19).score = 80 ∧
     (analyze_post_suitability policy1 post19).is_suitable = false) ∧
    ((analyze_post_suitability policy1 post19banned).score = 30 ∧
     (analyze_post_suitability policy1 post19banned).is_suitable = false) := by
  obtain ⟨h1, _⟩ := analyze_post_suitability_boundary policy1 post19
    "abcdefghijklmnopqrs".data (List.replicate 200 'x') rfl (by decide) rfl (by decide)
    rfl rfl (by decide)
  obtain ⟨_, h2⟩ := analyze_post_suitability_boundary policy1 post19banned
    "abcdefghijklmnopqrs".data ("murder ".data ++ List.replicate 193 'x') rfl (by decide)
    rfl (by decide) rfl rfl (by decide)
  obtain ⟨ha, hb, -⟩ := h1 (by decide)
  obtain ⟨hc, hd⟩ := h2 "murder".data (by decide)
  exact ⟨⟨ha, hb⟩, ⟨hc, hd⟩⟩

/-! ### C3 — the classification confidence gate -/

/-- Rule-based classification on a blob matching exactly one topic with 10
keyword occurrences, 5 distinct: the topic's raw score is
`10·0.7 + 5·0.3 = 8.5` and its confidence `min(8.5/20, 1) = 0.425`. -/
theorem rule_based_profile (pre post_ : TopicRules) (t0 : Str) (kws : List Str)
    (default_topic text : Str)
    (hlen : (findall kws text).length = 10)
    (hdedup : (findall kws text).dedup.length = 5)
    (hpre : ∀ r ∈ pre, findall r.2 text = [])
    (hpost : ∀ r ∈ post_, findall r.2 text = []) :
    rule_based_classification (pre ++ (t0, kws) :: post_) default_topic text =
      ⟨t0, 17/40, "rule_based".data⟩ := by
  have hmid : (findall kws text).isEmpty = false := by
    cases hfa : findall kws text
    · rw [hfa] at hlen; simp at hlen
    · rfl
  have hsc : topicScore (findall kws text) = 17/2 := by
    rw [topicScore, hlen, hdedup]; norm_num
  have hft : (pre ++ (t0, kws) :: post_).filterMap (fun r =>
      let found := findall r.2 text
      if found.isEmpty then none else some (r.1, topicScore found)) =
      [(t0, topicScore (findall kws text))] := by
    have hfm_pre : pre.filterMap (fun r =>
        let found := findall r.2 text
        if found.isEmpty then none else some (r.1, topicScore found)) = [] := by
      rw [List.filterMap_eq_nil_iff]
      intro r hr
      simp [hpre r hr]
    have hfm_post : post_.filterMap (fun r =>
        let found := findall r.2 text
        if found.isEmpty then none else some (r.1, topicScore found)) = [] := by
      rw [List.filterMap_eq_nil_iff]
      intro r hr
      simp [hpost r hr]
    rw [List.filterMap_append, List.filterMap_cons, hfm_pre, hfm_post]
    simp [hmid]
  rw [rule_based_classification]
  simp only [hft]
  rw [hsc]
  simp only [List.foldl_nil]
  have : min ((17 : ℚ)/2/20) 1 = 17/40 := by
    rw [min_def]; norm_num
  rw [this]

/-- C3 (amended): for a post whose blob matches 10 occurrences of 5 distinct
keywords of exactly one topic and none of any other, the rule-based
confidence is `min((10·0.7 + 5·0.3)/20, 1) = 8.5/20 = 0.425` — not the
claimed 0.475 — and since 0.425 does not exceed the 0.7 gate, `classify`
proceeds to the subreddit-or-default fallback instead of returning the
keyword match outright. -/
theorem classify_low_confidence_gate (pre post_ : TopicRules) (t0 : Str) (kws : List Str)
    (default_topic : Str) (p : Post)
    (hlen : (findall kws (extract_text p)).length = 10)
    (hdedup : (findall kws (extract_text p)).dedup.length = 5)
    (hpre : ∀ r ∈ pre, findall r.2 (extract_text p) = [])
    (hpost : ∀ r ∈ post_, findall r.2 (extract_text p) = []) :
    rule_based_classification (pre ++ (t0, kws) :: post_) default_topic (extract_text p) =
      ⟨t0, 17/40, "rule_based".data⟩ ∧
    classify (pre ++ (t0, kws) :: post_) default_topic p =
      classify_fallback default_topic p ⟨t0, 17/40, "rule_based".data⟩ := by
  have hr := rule_based_profile pre post_ t0 kws default_topic (extract_text p)
    hlen hdedup hpre hpost
  refine ⟨hr, ?_⟩
  rw [classify, hr]
  rw [if_neg (by norm_num : ¬ (7/10 : ℚ) < (ClassifyResult.mk t0 (17/40) "rule_based".data).confidence)]

/-- C3 counterexample: on a concrete single-topic rule set and a post whose
blob holds 10 occurrences of its 5 keywords, the computed rule-based
confidence is 0.425 = 17/40, not the claimed 0.475 = 19/40. -/
theorem classify_confidence_counterexample :
    (rule_based_classification rulesTech "explainer".data (extract_text postKeywords)).confidence
      = 17/40 ∧
    (17 : ℚ)/40 ≠ 19/40 := by
  constructor
  · have h := rule_based_profile [] []
      "tech".data ["aa".data, "bb".data, "cc".data, "dd".data, "ee".data]
      "explainer".data (extract_text postKeywords)
      (by decide) (by decide) (by simp) (by simp)
    rw [show rulesTech = [] ++
      ("tech".data, ["aa".data, "bb".data, "cc".data, "dd".data, "ee".data]) :: [] from rfl]
    rw [h]
  · norm_num

/-- Witness for C3 on the concrete rule set and post. -/
theorem classify_low_confidence_gate_witness :
    rule_based_classification rulesTech "explainer".data (extract_text postKeywords) =
      ⟨"tech".data, 17/40, "rule_based".data⟩ ∧
    classify rulesTech "explainer".data postKeywords =
      classify_fallback "explainer".data postKeywords
        ⟨"tech".data, 17/40, "rule_based".data⟩ :=
  classify_low_confidence_gate [] []
    "tech".data ["aa".data, "bb".data, "cc".data, "dd".data, "ee".data]
    "explainer".data postKeywords
    (by decide) (by decide) (by simp) (by simp)

/-! ### C7 — upload metadata truncation -/

/-- C7: `upload_video` truncates a title longer than 100 characters to its
first 97 characters plus the 3-character ellipsis (yielding exactly 100
characters), truncates a description longer than 5000 characters to its
first 4997 characters plus ellipsis (exactly 5000), leaves short fields
unchanged, and silently replaces a privacy status outside
`{private, unlisted, public}` with `private`. -/
theorem upload_video_field_normalization (title description privacy : Str) :
    (100 < title.length →
      (upload_video_metadata title description privacy).title =
        title.take 97 ++ "...".data ∧
      (upload_video_metadata title description privacy).title.length = 100) ∧
    (title.length ≤ 100 →
      (upload_video_metadata title description privacy).title = title) ∧
    (5000 < description.length →
      (upload_video_metadata title description privacy).description =
        description.take 4997 ++ "...".data ∧
      (upload_video_metadata title description privacy).description.length = 5000) ∧
    (description.length ≤ 5000 →
      (upload_video_metadata title description privacy).description = description) ∧
    (VALID_PRIVACY_STATUSES.contains privacy = false →
      (upload_video_metadata title description privacy).privacy_status = "private".data) ∧
    (VALID_PRIVACY_STATUSES.contains privacy = true →
      (upload_video_metadata title description privacy).privacy_status = privacy) := by
  refine ⟨?_, ?_, ?_, ?_, ?_, ?_⟩
  · intro h
    constructor
    · simp [upload_video_metadata, if_pos h]
    · simp [upload_video_metadata, if_pos h, List.length_take]
      omega
  · intro h
    simp [upload_video_metadata]
    omega
  · intro h
    constructor
    · simp [upload_video_metadata, if_pos h]
    · simp [upload_video_metadata, if_pos h, List.length_take]
      omega
  · intro h
    simp [upload_video_metadata]
    omega
  · intro h
    have hmem : privacy ∉ VALID_PRIVACY_STATUSES := by simpa using h
    simp [upload_video_metadata, hmem]
  · intro h
    have hmem : privacy ∈ VALID_PRIVACY_STATUSES := by simpa using h
    simp [upload_video_metadata, hmem]

/-- Witness for C7: a 150-character title, a 6000-character description and
the unrecognized privacy value `"secret"`. -/
theorem upload_video_field_normalization_witness :
    (upload_video_metadata (List.replicate 150 'a') (List.replicate 6000 'b')
        "secret".data).title = (List.replicate 150 'a').take 97 ++ "...".data ∧
    (upload_video_metadata (List.replicate 150 'a') (List.replicate 6000 'b')
        "secret".data).description = (List.replicate 6000 'b').take 4997 ++ "...".data ∧
    (upload_video_metadata (List.replicate 150 'a') (List.replicate 6000 'b')
        "secret".data).privacy_status = "private".data := by
  have h := upload_video_field_normalization (List.replicate 150 'a')
    (List.replicate 6000 'b') "secret".data
  refine ⟨(h.1 ?_).1, (h.2.2.1 ?_).1, h.2.2.2.2.1 ?_⟩
  · rw [List.length_replicate]; norm_num
  · rw [List.length_replicate]; norm_num
  · decide

/-! ### C8 — deduplication cache TTL -/

/-- C8: an identifier added to the enabled cache at time `t0` is in the cache;
on the next load/purge cycle at time `now`, it is absent when its age exceeds
the retention window of `cache_days` days, and still present when it is one
day short of the window. -/
theorem dedup_ttl (cache_days t0 now : ℤ) (cache : List (Str × ℤ)) (item_id : Str) :
    (item_id, t0) ∈ add_item true cache item_id t0 ∧
    (t0 < now - cache_days * 86400 →
      (item_id, t0) ∉ load_cache true cache_days now (some (add_item true cache item_id t0))) ∧
    (t0 = now - (cache_days - 1) * 86400 →
      (item_id, t0) ∈ load_cache true cache_days now (some (add_item true cache item_id t0))) := by
  refine ⟨?_, ?_, ?_⟩
  · simp [add_item]
  · intro hold
    simp [load_cache, clean_expired, List.mem_filter]
    intro _
    omega
  · intro hshort
    simp [load_cache, clean_expired, List.mem_filter, add_item]
    omega

/-- Witness for C8: window of 7 days; an entry aged 8 days is purged, an
entry aged 6 days survives. -/
theorem dedup_ttl_witness :
    ("x".data, (1000000 : ℤ) - 8 * 86400) ∉
      load_cache true 7 1000000
        (some (add_item true [] "x".data (1000000 - 8 * 86400))) ∧
    ("x".data, (1000000 : ℤ) - 6 * 86400) ∈
      load_cache true 7 1000000
        (some (add_item true [] "x".data (1000000 - 6 * 86400))) :=
  ⟨(dedup_ttl 7 (1000000 - 8 * 86400) 1000000 [] "x".data).2.1 (by norm_num),
   (dedup_ttl 7 (1000000 - 6 * 86400) 1000000 [] "x".data).2.2 (by norm_num)⟩

/-! ### C9 — JSON repair recovery -/

theorem matchFieldAt_ne_nil (field : Str) (s : Str) (r : Str × Str)
    (h : matchFieldAt field s = some r) : r.1 ≠ [] := by
  rw [matchFieldAt] at h
  repeat split at h
  all_goals simp_all [List.isEmpty_iff]
  rename_i r3 hpre heq1 heq2
  obtain ⟨⟨hlen, hhead⟩, -, hr⟩ := h
  subst hr
  rcases r3 with _ | ⟨c, rest⟩
  · simp at hlen
  · have hc : ¬ c = '"' := by simpa using hhead
    simp [List.takeWhile_cons, hc]

theorem searchField_ne_nil (field : Str) :
    ∀ (s s0 : Str), searchField field s = some s0 → s0 ≠ [] := by
  intro s
  induction s with
  | nil =>
    intro s0 h
    exact absurd h (by simp [searchField])
  | cons c rest ih =>
    intro s0 h
    rw [searchField] at h
    split at h
    next r heq =>
      cases h
      exact matchFieldAt_ne_nil field (c :: rest) r heq
    next heq => exact ih s0 h

/-- C9 (amended): `parse_with_fixes` always returns a value (never raises),
but its result need not contain a `narration` key: when the input (possibly
after repair) parses as JSON, that parsed value is returned unchanged — for
the trailing-comma input `{"a":1,}` the repaired parse is `{"a": 1}`, which
has no `narration` key. Only the structural-extraction fallback guarantees a
`narration` object, and there the `outro` is always non-empty (a recovered
value is non-empty by the regex, the default is `"Thanks for watching!"`),
while the `intro` may be the empty string. -/
theorem parse_with_fixes_recovery :
    (∀ text : Str, (parse_with_fixes text).isSome = true) ∧
    (∀ text : Str,
      jsonNonEmptyString (jsonLookup ((jsonLookup (extract_structure text)
        "narration".data).getD Json.null) "outro".data) = true) ∧
    jsonLookup ((parse_with_fixes trailingCommaInput).getD Json.null) "narration".data
      = none := by
  refine ⟨?_, ?_, rfl⟩
  · intro text
    rcases hjl : json_loads text with e | v
    · rcases hal : attemptLoop 5 (fix_json text) with _ | v2 <;>
        simp [parse_with_fixes, hjl, hal]
    · simp [parse_with_fixes, hjl]
  · intro text
    have h1 : jsonLookup (extract_structure text) "narration".data =
        some (extract_structure_narration text) := rfl
    have h2 : jsonLookup (extract_structure_narration text) "outro".data =
        some (.str ((searchField "outro".data text).getD "Thanks for watching!".data)) := rfl
    rw [h1, Option.getD_some, h2]
    rcases ho : searchField "outro".data text with _ | s0
    · rfl
    · have hne := searchField_ne_nil "outro".data text s0 ho
      rcases s0 with _ | ⟨c, rest⟩
      · exact absurd rfl hne
      · rfl

/-- C9 counterexample: the input `{"a":1,}` contains a trailing comma before
a closing bracket; `parse_with_fixes` repairs and parses it to `{"a": 1}` —
a dictionary with no `narration` key at all, so the claimed recovery shape
(a `narration` key with non-empty intro/outro) does not hold. -/
theorem parse_with_fixes_counterexample :
    parse_with_fixes trailingCommaInput =
      some (Json.obj [("a".data, Json.num ((1 : ℕ) : ℚ))]) ∧
    jsonLookup (Json.obj [("a".data, Json.num ((1 : ℕ) : ℚ))]) "narration".data = none :=
  ⟨rfl, rfl⟩
